import Mathlib

set_option maxRecDepth 4000

/-!
Shallow embedding of `custom_components/bticino_x8000/config_flow.py`
(the Bticino X8000 Home Assistant config flow).

Strings manipulated by the URL/query-string parsing layer are modelled as
`List Char`; all other strings are Lean `String`s.  The remote API, the
token endpoint and the platform entry registry are modelled as an explicit
environment (`ApiEnv`), and every step function returns, next to its flow
result, the ordered list of remote calls it performed.
-/

/-- A schedule program as returned by `get_chronothermostat_programlist`
(`program["number"]`, `program["name"]`). -/
structure Program where
  number : Int
  name : String
deriving DecidableEq, Repr

/-- A device descriptor from `get_topology(plant_id)["data"]`
(`thermo["id"]`, `thermo["name"]`). -/
structure ThermoDevice where
  id : String
  name : String
deriving DecidableEq, Repr

/-- A plant record from `get_plants()["data"]` (`plant["id"]`). -/
structure Plant where
  id : String
deriving DecidableEq, Repr

/-- The token triple returned by `exchange_code_for_tokens`. -/
structure TokenSet where
  access_token : String
  refresh_token : String
  access_token_expires_on : String
deriving DecidableEq, Repr

/-- The user-supplied credentials collected by `async_step_user`. -/
structure Credentials where
  client_id : String
  client_secret : String
  subscription_key : String
  external_url : String
deriving DecidableEq, Repr

/-- One remote call performed by the flow, in order of execution. -/
inductive ApiCall where
  | exchangeToken (code : List Char)
  | healthCheck
  | getPlants
  | getTopology (plantId : String)
  | getProgramList (plantId : String) (topologyId : String)
  | subscribeC2C (plantId : String) (endPointUrl : String)
deriving DecidableEq, Repr

/-- The environment of external collaborators: token endpoint
(`exchange_code_for_tokens`, modelled as its success path), and the
`BticinoX8000Api` client methods consumed by the flow. -/
structure ApiEnv where
  tokens : List Char → TokenSet
  healthOk : Bool
  plantsStatus : Nat
  plants : List Plant
  topology : String → List ThermoDevice
  programList : String → String → List Program
  subscribeStatus : String → String → Nat
  subscribeId : String → String → String

/- ### urllib modelling: `urlparse(...).query` and `parse_qs`

Modelled from the Python standard library (an external collaborator of the
flow): `urlsplit` cuts the fragment at the first `#` and the query after the
first `?`; `parse_qsl` splits the query on `&`, skips empty fields, splits
each field at its first `=`, skips fields without `=` and fields with an
empty raw value (`keep_blank_values=False`), and unquotes names and values
(`+` to space, `%XY` percent-escapes).  Percent-escapes are decoded here
bytewise (exact for ASCII escapes; multi-byte UTF-8 escape sequences are
approximated by their bytewise decoding, which no claim depends on). -/

/-- Hex digit value accepted by `unquote` (both cases). -/
def hexDigitVal (c : Char) : Option Nat :=
  if ('0' ≤ c ∧ c ≤ '9') then some (c.toNat - '0'.toNat)
  else if ('a' ≤ c ∧ c ≤ 'f') then some (c.toNat - 'a'.toNat + 10)
  else if ('A' ≤ c ∧ c ≤ 'F') then some (c.toNat - 'A'.toNat + 10)
  else none

/-- Percent-escape decoding of `urllib.parse.unquote`, bytewise: a valid
`%XY` pair becomes one character, an invalid escape is kept verbatim and
scanning resumes after the `%`. -/
def percentDecode : List Char → List Char
  | [] => []
  | c :: rest =>
    if c == '%' then
      match rest with
      | a :: b :: rest2 =>
        match hexDigitVal a, hexDigitVal b with
        | some ha, some hb => Char.ofNat (16 * ha + hb) :: percentDecode rest2
        | _, _ => '%' :: percentDecode (a :: b :: rest2)
      | [a] => '%' :: percentDecode [a]
      | [] => ['%']
    else c :: percentDecode rest

/-- The `.replace('+', ' ')` applied by `parse_qsl` before unquoting. -/
def plusToSpace (l : List Char) : List Char :=
  l.map (fun c => if c == '+' then ' ' else c)

/-- `unquote_plus` as applied by `parse_qsl` to field names and values. -/
def unquote_plus (l : List Char) : List Char :=
  percentDecode (plusToSpace l)

/-- Split a character list on every occurrence of `sep`
(`str.split(sep)` semantics: `n` separators yield `n+1` chunks). -/
def splitOnChar (sep : Char) : List Char → List (List Char)
  | [] => [[]]
  | c :: cs =>
    if c == sep then [] :: splitOnChar sep cs
    else
      match splitOnChar sep cs with
      | [] => [[c]]
      | h :: t => (c :: h) :: t

/-- One `name=value` field of `parse_qsl`: `none` when the field is skipped
(no `=`, or empty raw value with `keep_blank_values=False`). -/
def parse_pair (nv : List Char) : Option (List Char × List Char) :=
  if nv.any (fun c => c == '=') then
    let name := nv.takeWhile (fun c => !(c == '='))
    let value := (nv.dropWhile (fun c => !(c == '='))).tail
    if value.isEmpty then none
    else some (unquote_plus name, unquote_plus value)
  else none

/-- `urllib.parse.parse_qsl(query)`: ordered name/value pairs. -/
def parse_qsl (query : List Char) : List (List Char × List Char) :=
  ((splitOnChar '&' query).filter (fun s => !s.isEmpty)).filterMap parse_pair

/-- `parse_qs(query).get(key, [""])[0]`: the first value recorded for `key`,
or the empty string when the key is absent. -/
def qs_first (query : List Char) (key : List Char) : List Char :=
  match (parse_qsl query).filter (fun p => p.1 == key) with
  | [] => []
  | p :: _ => p.2

/-- `urlparse(url).query`: the part after the first `?` of the part before
the first `#`. -/
def urlparse_query (url : List Char) : List Char :=
  let beforeFrag := url.takeWhile (fun c => !(c == '#'))
  ((beforeFrag.dropWhile (fun c => !(c == '?'))).tail)

/- ### Constants

`CLIENT_ID`, `CLIENT_SECRET`, `SUBSCRIPTION_KEY` (form defaults) play no
role in any claim.  The three URL constants below come from `const.py`,
which is not part of the sources at hand. -/

/-- Modelled from the spec: `DEFAULT_AUTH_BASE_URL` of `const.py` (not in
src), the fixed provider authorization base URL. -/
def DEFAULT_AUTH_BASE_URL : List Char := "https://partners-login.eliotbylegrand.com".data

/-- Modelled from the spec: `AUTH_URL_ENDPOINT` of `const.py` (not in src),
the fixed provider authorization endpoint path. -/
def AUTH_URL_ENDPOINT : List Char := "/authorize".data

/-- Modelled from the spec: `DEFAULT_REDIRECT_URI` of `const.py` (not in
src), the fixed redirect URI embedded in the authorization URL. -/
def DEFAULT_REDIRECT_URI : List Char := "https://result.eliotbylegrand.com".data

/-- Hex digit characters used by `%x` formatting (`secrets.token_hex`). -/
def hexChar : Nat → Char
  | 0 => '0' | 1 => '1' | 2 => '2' | 3 => '3' | 4 => '4' | 5 => '5'
  | 6 => '6' | 7 => '7' | 8 => '8' | 9 => '9' | 10 => 'a' | 11 => 'b'
  | 12 => 'c' | 13 => 'd' | 14 => 'e' | 15 => 'f' | _ => '0'

/-- `secrets.token_hex` applied to a byte sequence: each byte becomes two
lowercase hex digits.  `token_hex(16)` draws 16 random bytes (128 bits). -/
def token_hex : List Nat → List Char
  | [] => []
  | b :: bs => hexChar (b / 16) :: hexChar (b % 16) :: token_hex bs


/- ### Flow data types -/

/-- String literals of `config_flow.py` used in results and messages. -/
def single_instance_reason : String := "single_instance_allowed"

/-- Abort reason literal of line 143 (`self.async_abort(reason="Auth Failed!")`). -/
def auth_failed_reason : String := "Auth Failed!"

/-- Step id of the credentials form. -/
def step_id_user : String := "user"

/-- Step id of the callback-URL form (AwaitingCallback). -/
def step_id_get_authorize_code : String := "get_authorize_code"

/-- Step id of the device multi-select form. -/
def step_id_select_thermostats : String := "select_thermostats"

/-- Title of the created config entry. -/
def entry_title : String := "Bticino X8000"

/-- The `ValueError` message raised when `code` or `state` is missing/empty. -/
def invalid_callback_message : String :=
  "Unable to identify the Authorize Code or State. Please make sure to provide a valid URL."

/-- Query-string key `code`. -/
def codeKey : List Char := "code".data

/-- Query-string key `state`. -/
def stateKey : List Char := "state".data

/-- A discovered-device record, one value of the `thermostat_options`
dict (`{"id": ..., "name": ..., "webhook_id": ..., "programs": ...}`). -/
structure Candidate where
  id : String
  name : String
  webhook_id : String
  programs : List Program
deriving DecidableEq, Repr

/-- A `selected_thermostats` element of the created entry: the dict key
(the plant id) together with the candidate data augmented with
`subscription_id`. -/
structure SelectedThermostat where
  plant_id : String
  id : String
  name : String
  webhook_id : String
  programs : List Program
  subscription_id : Option String
deriving DecidableEq, Repr

/-- The `data` payload of `async_create_entry`. -/
structure EntryData where
  client_id : String
  client_secret : String
  subscription_key : String
  external_url : String
  access_token : String
  refresh_token : String
  access_token_expires_on : String
  selected_thermostats : List SelectedThermostat
deriving DecidableEq, Repr

/-- The `FlowResult` values produced by this flow: a shown form (with the
names offered by the multi-select when relevant), an abort, or a created
entry. -/
inductive FlowResult where
  | showForm (step_id : String) (options : List String)
  | abort (reason : String)
  | createEntry (title : String) (data : EntryData)
deriving DecidableEq, Repr

/-- A Python exception escaping the step body: the `ValueError` raised by
the callback check (caught by the `except ValueError` handler), or the
`NameError` (`UnboundLocalError`) from reading the unassigned
`thermostat_options` local. -/
inductive PyError where
  | valueError (msg : String)
  | nameError
deriving DecidableEq, Repr

/-- Outcome of one step: a flow result, or an exception no handler caught. -/
inductive StepOutcome where
  | result (r : FlowResult)
  | unhandled (e : PyError)
deriving DecidableEq, Repr

/- ### Flow functions -/

/-- `get_authorization_url` (lines 94-103): plain concatenation of the
fixed base, endpoint, `client_id`, `response_type=code`, the fresh
`state = secrets.token_hex(16)` and the fixed redirect URI, with no URL
encoding.  The random state is passed in explicitly. -/
def get_authorization_url (client_id : List Char) (state : List Char) : List Char :=
  DEFAULT_AUTH_BASE_URL ++ AUTH_URL_ENDPOINT ++ "?".data
    ++ "client_id=".data ++ client_id
    ++ "&response_type=code".data
    ++ "&state=".data ++ state
    ++ "&redirect_uri=".data ++ DEFAULT_REDIRECT_URI

/-- Lines 111-121: parse the pasted browser URL, read `code` and `state`
(first value, default empty), and raise `ValueError` when either is empty. -/
def extract_code_state (url : List Char) : Except String (List Char × List Char) :=
  let query := urlparse_query url
  let code := qs_first query codeKey
  let state := qs_first query stateKey
  if code.isEmpty || state.isEmpty then Except.error invalid_callback_message
  else Except.ok (code, state)

/-- `async_step_user` (lines 32-92): aborts when an entry already exists,
shows the credentials form when no input was given, and otherwise shows the
callback form.  It performs no remote call (the returned trace). -/
def async_step_user (hasEntries : Bool) (user_input : Option Credentials) :
    FlowResult × List ApiCall :=
  if hasEntries then (FlowResult.abort single_instance_reason, [])
  else
    match user_input with
    | none => (FlowResult.showForm step_id_user [], [])
    | some _ => (FlowResult.showForm step_id_get_authorize_code [], [])

/-- Python dict assignment `d[k] = v` (`dict.update({k: v})`): replaces the
value in place when the key exists, else appends the pair. -/
def dictUpdate (d : List (String × Candidate)) (k : String) (v : Candidate) :
    List (String × Candidate) :=
  if d.any (fun p => p.1 == k) then
    d.map (fun p => if p.1 == k then (k, v) else p)
  else d ++ [(k, v)]

/-- `get_programs_from_api` (lines 208-219): fetch the program list and keep
the programs whose `number` is not 0, in order. -/
def get_programs_from_api (env : ApiEnv) (plant_id : String) (topology_id : String) :
    List Program × List ApiCall :=
  let programs := env.programList plant_id topology_id
  let filtered_programs := programs.filter (fun program => !(program.number == 0))
  (filtered_programs, [ApiCall.getProgramList plant_id topology_id])

/-- The inner loop of lines 152-165: for each device of one plant's
topology, mint a webhook id (`generate_id`, modelled as a counter) and
store the candidate under the key `plant_id` (note: the plant id, not the
device id). -/
def discoverThermos (env : ApiEnv) (pid : String) :
    List ThermoDevice → List (String × Candidate) × List ApiCall × Nat →
    List (String × Candidate) × List ApiCall × Nat
  | [], acc => acc
  | th :: rest, (d, calls, n) =>
    let webhook_id := "wh" ++ toString n
    let pc := get_programs_from_api env pid th.id
    discoverThermos env pid rest
      (dictUpdate d pid (Candidate.mk th.id th.name webhook_id pc.1), calls ++ pc.2, n + 1)

/-- The outer loop of lines 150-165: query the topology of each plant id
and fold the per-device loop. -/
def discoverPlants (env : ApiEnv) :
    List String → List (String × Candidate) × List ApiCall × Nat →
    List (String × Candidate) × List ApiCall × Nat
  | [], acc => acc
  | pid :: rest, (d, calls, n) =>
    discoverPlants env rest
      (discoverThermos env pid (env.topology pid) (d, calls ++ [ApiCall.getTopology pid], n))

/-- Line 149: `plant_ids = list(set(plant["id"] for plant in data))`.
CPython's set iteration order is unspecified; it is modelled by `dedup`
(the claims about it are order-independent). -/
def plant_ids (env : ApiEnv) : List String :=
  (env.plants.map Plant.id).dedup

/-- The whole discovery of lines 148-166, from an empty dict and counter. -/
def discover (env : ApiEnv) : List (String × Candidate) × List ApiCall × Nat :=
  discoverPlants env (plant_ids env) ([], [], 0)

/-- The `try` body of `async_step_get_authorize_code` for a submitted URL
(lines 110-187): parse the callback, exchange the code, health-check,
fetch plants, and either discover devices (status 200) and show the
multi-select, or hit the `NameError` of reading `thermostat_options`
(assigned only in the 200 branch) at line 176. -/
def authorize_code_body (env : ApiEnv) (url : List Char) :
    Except PyError FlowResult × List ApiCall :=
  match extract_code_state url with
  | Except.error msg => (Except.error (PyError.valueError msg), [])
  | Except.ok (code, _state) =>
    let _toks := env.tokens code
    if env.healthOk then
      if env.plantsStatus == 200 then
        let dres := discover env
        (Except.ok (FlowResult.showForm step_id_select_thermostats
            (dres.1.map (fun p => p.2.name))),
          [ApiCall.exchangeToken code, ApiCall.healthCheck, ApiCall.getPlants] ++ dres.2.1)
      else
        (Except.error PyError.nameError,
          [ApiCall.exchangeToken code, ApiCall.healthCheck, ApiCall.getPlants])
    else
      (Except.ok (FlowResult.abort auth_failed_reason),
        [ApiCall.exchangeToken code, ApiCall.healthCheck])

/-- `async_step_get_authorize_code` (lines 105-192): with no input, fall
through to `async_step_user(self.data)`; with input, run the body under
`except ValueError`, whose handler re-runs this step with no input (hence
the same fall-through).  A `NameError` is not caught. -/
def async_step_get_authorize_code (env : ApiEnv) (hasEntries : Bool) (data : Credentials)
    (user_input : Option (List Char)) : StepOutcome × List ApiCall :=
  match user_input with
  | none => (StepOutcome.result (async_step_user hasEntries (some data)).1, [])
  | some url =>
    match authorize_code_body env url with
    | (Except.error (PyError.valueError _), calls) =>
      (StepOutcome.result (async_step_user hasEntries (some data)).1, calls)
    | (Except.error PyError.nameError, calls) => (StepOutcome.unhandled PyError.nameError, calls)
    | (Except.ok r, calls) => (StepOutcome.result r, calls)

/-- `add_c2c_subscription` (lines 194-206): compose the webhook endpoint
and call the C2C subscription API; return the `subscriptionId` on HTTP 201
and `None` otherwise.  The performed call is returned alongside. -/
def add_c2c_subscription (env : ApiEnv) (external_url : String) (plantId : String)
    (webhook_id : String) : Option String × ApiCall :=
  let webhook_path := "/api/webhook/"
  let webhook_endpoint := external_url ++ webhook_path ++ webhook_id
  let call := ApiCall.subscribeC2C plantId webhook_endpoint
  if env.subscribeStatus plantId webhook_endpoint == 201 then
    (some (env.subscribeId plantId webhook_endpoint), call)
  else (none, call)

/-- `async_step_select_thermostats` (lines 221-249): keep the candidates
whose name was selected, subscribe each one sequentially, and create the
entry with the collected (possibly `None`) subscription ids. -/
def async_step_select_thermostats (env : ApiEnv) (data : Credentials) (toks : TokenSet)
    (thermostat_options : List (String × Candidate)) (selected_names : List String) :
    FlowResult × List ApiCall :=
  let chosen := thermostat_options.filter (fun p => selected_names.contains p.2.name)
  let results := chosen.map (fun p =>
    (p, add_c2c_subscription env data.external_url p.1 p.2.webhook_id))
  let selected_thermostats := results.map (fun r =>
    SelectedThermostat.mk r.1.1 r.1.2.id r.1.2.name r.1.2.webhook_id r.1.2.programs r.2.1)
  (FlowResult.createEntry entry_title
    (EntryData.mk data.client_id data.client_secret data.subscription_key
      data.external_url toks.access_token toks.refresh_token
      toks.access_token_expires_on selected_thermostats),
    results.map (fun r => r.2.2))

/- ### Predicates used to state C7, and concrete fixtures for witnesses -/

/-- A character that is inert for this flow's URL composition and parsing:
not a separator, key-value delimiter, fragment/query marker, escape or plus. -/
def cleanChar (c : Char) : Bool :=
  !(c == '&' || c == '=' || c == '#' || c == '?' || c == '%' || c == '+')

/-- A parameter value made of inert characters only (a "valid credential
input" for the un-encoded URL concatenation of `get_authorization_url`). -/
def cleanParam (l : List Char) : Bool :=
  l.all cleanChar

/-- The abort reason named by the specification (§4.4), for comparison with
the code's literal. -/
def spec_auth_failed_reason : String := "auth_failed"

/-- Fixture: external url used by witness environments. -/
def extUrlW : String := "http://ha.example:8123"

/-- Fixture: plant ids and webhook ids. -/
def pidA : String := "p1"

/-- Fixture: second plant id. -/
def pidB : String := "p2"

/-- Fixture: webhook id of the first candidate. -/
def whA : String := "w1"

/-- Fixture: webhook id of the second candidate. -/
def whB : String := "w2"

/-- Fixture: subscription id returned by the witness environment. -/
def subIdB : String := "sub-2"

/-- Fixture: credentials. -/
def credW : Credentials := ⟨"cid", "csecret", "skey", extUrlW⟩

/-- Fixture: token set. -/
def toksW : TokenSet := ⟨"at", "rt", "2025-01-01T00:00:00Z"⟩

/-- Fixture: a well-formed pasted callback URL. -/
def urlGood : List Char := "https://x/cb?code=A&state=S".data

/-- Fixture: the same callback URL with a different state value. -/
def urlGood2 : List Char := "https://x/cb?code=A&state=T2".data

/-- Fixture: a callback URL with no `code` parameter. -/
def urlNoCode : List Char := "https://x/cb?state=S".data

/-- Fixture: a healthy environment with one plant listed twice and two
devices in its topology. -/
def envOk : ApiEnv :=
  { tokens := fun _ => toksW,
    healthOk := true,
    plantsStatus := 200,
    plants := [⟨"p1"⟩, ⟨"p1"⟩],
    topology := fun pid =>
      if pid == pidA then [⟨"t1", "Living Room"⟩, ⟨"t2", "Bedroom"⟩] else [],
    programList := fun _ _ => [⟨0, "Manual"⟩, ⟨1, "Winter"⟩],
    subscribeStatus := fun _ _ => 201,
    subscribeId := fun _ _ => subIdB }

/-- Fixture: same but the health check fails. -/
def envHealthFail : ApiEnv := { envOk with healthOk := false }

/-- Fixture: same but the plant listing returns HTTP 500. -/
def envPlants500 : ApiEnv := { envOk with plantsStatus := 500 }

/-- Fixture: one plant, two devices, no programs (for the C1 evaluation). -/
def envC1 : ApiEnv := { envOk with plants := [⟨"p1"⟩], programList := fun _ _ => [] }

/-- Fixture: subscription fails (HTTP 400) for plant `p1` only. -/
def envSubFail : ApiEnv :=
  { envOk with subscribeStatus := fun pid _ => if pid == pidA then 400 else 201 }

/-- Fixture: the candidate options offered to the selection step. -/
def optsW : List (String × Candidate) :=
  [(pidA, ⟨"t1", "Living Room", whA, []⟩), (pidB, ⟨"t2", "Bedroom", whB, []⟩)]

/-- Fixture: both names selected. -/
def namesW : List String := ["Living Room", "Bedroom"]

/- ### Theorems -/

/-- C8: if a configuration record already exists when the user step is
entered, `async_step_user` aborts immediately with reason
`single_instance_allowed`, shows no form and performs no remote call,
whatever input was submitted. -/
theorem c8_single_instance_abort (user_input : Option Credentials) :
    async_step_user true user_input = (FlowResult.abort single_instance_reason, []) := by
  simp [async_step_user]

/-- C2: a pasted callback URL whose parsed query lacks `code` or lacks
`state` (absent or empty) makes the callback check fail with the handled
`ValueError` (`InvalidCallbackError`), and the step re-shows the
`get_authorize_code` form (AwaitingCallback) without aborting, without an
unhandled error and without any remote call. -/
theorem c2_invalid_callback_loops (env : ApiEnv) (data : Credentials) (url : List Char)
    (h : qs_first (urlparse_query url) codeKey = [] ∨
         qs_first (urlparse_query url) stateKey = []) :
    extract_code_state url = Except.error invalid_callback_message ∧
    async_step_get_authorize_code env false data (some url) =
      (StepOutcome.result (FlowResult.showForm step_id_get_authorize_code []), []) := by
  have hext : extract_code_state url = Except.error invalid_callback_message := by
    rcases h with h | h <;> simp [extract_code_state, h]
  refine ⟨hext, ?_⟩
  simp only [async_step_get_authorize_code, authorize_code_body, hext]
  simp [async_step_user]

/-- Witness for C2 at a concrete URL lacking `code`. -/
theorem c2_invalid_callback_loops_witness :
    extract_code_state urlNoCode = Except.error invalid_callback_message ∧
    async_step_get_authorize_code envOk false credW (some urlNoCode) =
      (StepOutcome.result (FlowResult.showForm step_id_get_authorize_code []), []) :=
  c2_invalid_callback_loops envOk credW urlNoCode (Or.inl (by decide))

/-- C3 (amended): when the health check fails right after a successful
token exchange, the step aborts the whole flow with the code's literal
reason `"Auth Failed!"`, and no plant-listing, topology, program or
subscription call is made in that attempt. -/
theorem c3_health_check_failure_aborts (env : ApiEnv) (data : Credentials)
    (url code state : List Char)
    (hp : extract_code_state url = Except.ok (code, state))
    (hh : env.healthOk = false) :
    async_step_get_authorize_code env false data (some url) =
      (StepOutcome.result (FlowResult.abort auth_failed_reason),
        [ApiCall.exchangeToken code, ApiCall.healthCheck]) ∧
    ApiCall.getPlants ∉ (async_step_get_authorize_code env false data (some url)).2 ∧
    (∀ pid, ApiCall.getTopology pid ∉
      (async_step_get_authorize_code env false data (some url)).2) ∧
    (∀ pid tid, ApiCall.getProgramList pid tid ∉
      (async_step_get_authorize_code env false data (some url)).2) ∧
    (∀ pid ep, ApiCall.subscribeC2C pid ep ∉
      (async_step_get_authorize_code env false data (some url)).2) := by
  have hstep : async_step_get_authorize_code env false data (some url) =
      (StepOutcome.result (FlowResult.abort auth_failed_reason),
        [ApiCall.exchangeToken code, ApiCall.healthCheck]) := by
    simp only [async_step_get_authorize_code, authorize_code_body, hp, hh]
    simp
  refine ⟨hstep, ?_, ?_, ?_, ?_⟩ <;> simp [hstep]

/-- Witness for C3 (amended) at a concrete environment whose health check
returns false. -/
theorem c3_health_check_failure_aborts_witness :
    async_step_get_authorize_code envHealthFail false credW (some urlGood) =
      (StepOutcome.result (FlowResult.abort auth_failed_reason),
        [ApiCall.exchangeToken ("A".data), ApiCall.healthCheck]) ∧
    ApiCall.getPlants ∉ (async_step_get_authorize_code envHealthFail false credW (some urlGood)).2 ∧
    (∀ pid, ApiCall.getTopology pid ∉
      (async_step_get_authorize_code envHealthFail false credW (some urlGood)).2) ∧
    (∀ pid tid, ApiCall.getProgramList pid tid ∉
      (async_step_get_authorize_code envHealthFail false credW (some urlGood)).2) ∧
    (∀ pid ep, ApiCall.subscribeC2C pid ep ∉
      (async_step_get_authorize_code envHealthFail false credW (some urlGood)).2) :=
  c3_health_check_failure_aborts envHealthFail credW urlGood ("A".data) ("S".data)
    (by rfl) (by rfl)

/-- C3 counterexample: the code's abort reason is the literal
`"Auth Failed!"`, not the specification's `"auth_failed"`. -/
theorem c3_abort_reason_counterexample :
    (async_step_get_authorize_code envHealthFail false credW (some urlGood)).1 =
      StepOutcome.result (FlowResult.abort auth_failed_reason) ∧
    ¬ (async_step_get_authorize_code envHealthFail false credW (some urlGood)).1 =
      StepOutcome.result (FlowResult.abort spec_auth_failed_reason) := by
  decide

/-- C10: when the plant listing succeeds at the HTTP level with a status
other than 200, the step body reads the `thermostat_options` local that is
only assigned in the 200 branch, so the step ends in an unhandled
`NameError` (not caught by the `except ValueError` handler) instead of a
form or an abort. -/
theorem c10_non_200_plants_name_error (env : ApiEnv) (data : Credentials)
    (url code state : List Char)
    (hp : extract_code_state url = Except.ok (code, state))
    (hh : env.healthOk = true)
    (hs : env.plantsStatus ≠ 200) :
    async_step_get_authorize_code env false data (some url) =
      (StepOutcome.unhandled PyError.nameError,
        [ApiCall.exchangeToken code, ApiCall.healthCheck, ApiCall.getPlants]) := by
  have hbeq : (env.plantsStatus == 200) = false := by simp [hs]
  simp only [async_step_get_authorize_code, authorize_code_body, hp, hh, hbeq]
  simp

/-- Witness for C10 at a concrete environment whose plant listing returns
HTTP 500. -/
theorem c10_non_200_plants_name_error_witness :
    async_step_get_authorize_code envPlants500 false credW (some urlGood) =
      (StepOutcome.unhandled PyError.nameError,
        [ApiCall.exchangeToken ("A".data), ApiCall.healthCheck, ApiCall.getPlants]) :=
  c10_non_200_plants_name_error envPlants500 credW urlGood ("A".data) ("S".data)
    (by rfl) (by rfl) (by decide)

/-- C9: the state token is never cross-checked: two pasted callback URLs
whose parsed `code` agrees (both missing, or both present with the same
value) drive the step to identical outcomes, whatever their `state`
values are. -/
theorem c9_callback_state_never_compared (env : ApiEnv) (data : Credentials)
    (u1 u2 : List Char)
    (h : (extract_code_state u1).toOption.map Prod.fst =
         (extract_code_state u2).toOption.map Prod.fst) :
    async_step_get_authorize_code env false data (some u1) =
      async_step_get_authorize_code env false data (some u2) := by
  rcases h1 : extract_code_state u1 with m1 | ⟨c1, s1⟩ <;>
    rcases h2 : extract_code_state u2 with m2 | ⟨c2, s2⟩ <;>
    rw [h1, h2] at h <;>
    simp only [Except.toOption, Option.map] at h
  · simp only [async_step_get_authorize_code, authorize_code_body, h1, h2]
  · exact absurd h (by simp)
  · exact absurd h (by simp)
  · simp only [Option.some.injEq] at h
    subst h
    simp only [async_step_get_authorize_code, authorize_code_body, h1, h2]

/-- Witness for C9: two callback URLs differing only in their (non-empty)
state value produce the same outcome. -/
theorem c9_callback_state_never_compared_witness :
    async_step_get_authorize_code envOk false credW (some urlGood) =
      async_step_get_authorize_code envOk false credW (some urlGood2) :=
  c9_callback_state_never_compared envOk credW urlGood urlGood2 (by decide)

/-- C5: the program filter returns exactly the programs whose `number` is
not 0, as a sublist (hence in original relative order) of the API result;
in particular a list made of one zero-numbered program among N non-zero
ones filters to exactly those N programs, and an empty result is possible. -/
theorem c5_program_filter_drops_zero (env : ApiEnv) (pid tid : String) :
    ((get_programs_from_api env pid tid).1).Sublist (env.programList pid tid) ∧
    (∀ p : Program,
      p ∈ (get_programs_from_api env pid tid).1 ↔
        p ∈ env.programList pid tid ∧ p.number ≠ 0) ∧
    (∀ (xs ys : List Program) (z : Program),
      env.programList pid tid = xs ++ z :: ys → z.number = 0 →
      (∀ q ∈ xs, q.number ≠ 0) → (∀ q ∈ ys, q.number ≠ 0) →
      (get_programs_from_api env pid tid).1 = xs ++ ys) := by
  refine ⟨List.filter_sublist _, ?_, ?_⟩
  · intro p
    simp [get_programs_from_api, List.mem_filter]
  · intro xs ys z hEq hz hxs hys
    simp only [get_programs_from_api]
    rw [hEq, List.filter_append, List.filter_cons]
    have hzf : (!(z.number == 0)) = false := by simp [hz]
    rw [hzf]
    simp only [Bool.false_eq_true, if_false]
    rw [List.filter_eq_self.mpr (fun q hq => by simpa using hxs q hq),
      List.filter_eq_self.mpr (fun q hq => by simpa using hys q hq)]

/-- Witness for C5: one zero-numbered program among two others filters to
exactly the two others, in order. -/
theorem c5_program_filter_drops_zero_witness :
    (get_programs_from_api envOk "p1" "t1").1 = [Program.mk 1 "Winter"] :=
  (c5_program_filter_drops_zero envOk "p1" "t1").2.2 [] [⟨1, "Winter"⟩] ⟨0, "Manual"⟩
    rfl rfl (by simp) (by decide)

/-- C4: `add_c2c_subscription` composes the delivery URL as
`external_url + "/api/webhook/" + webhook_id`; it returns the response's
subscription id exactly on HTTP 201 and `None` on any other status, without
raising; and the selection step still creates the entry, persisting every
chosen candidate with its own (possibly `None`) subscription id. -/
theorem c4_subscription_partial_failure (env : ApiEnv) (data : Credentials)
    (toks : TokenSet) (thermostat_options : List (String × Candidate))
    (selected_names : List String) :
    (∀ pid wh, (add_c2c_subscription env data.external_url pid wh).2 =
      ApiCall.subscribeC2C pid (data.external_url ++ "/api/webhook/" ++ wh)) ∧
    (∀ pid wh,
      env.subscribeStatus pid (data.external_url ++ "/api/webhook/" ++ wh) ≠ 201 →
      (add_c2c_subscription env data.external_url pid wh).1 = none) ∧
    (∀ pid wh,
      env.subscribeStatus pid (data.external_url ++ "/api/webhook/" ++ wh) = 201 →
      (add_c2c_subscription env data.external_url pid wh).1 =
        some (env.subscribeId pid (data.external_url ++ "/api/webhook/" ++ wh))) ∧
    (async_step_select_thermostats env data toks thermostat_options selected_names).1 =
      FlowResult.createEntry entry_title
        (EntryData.mk data.client_id data.client_secret data.subscription_key
          data.external_url toks.access_token toks.refresh_token
          toks.access_token_expires_on
          ((thermostat_options.filter (fun p => selected_names.contains p.2.name)).map
            (fun p => SelectedThermostat.mk p.1 p.2.id p.2.name p.2.webhook_id p.2.programs
              (add_c2c_subscription env data.external_url p.1 p.2.webhook_id).1))) := by
  refine ⟨?_, ?_, ?_, ?_⟩
  · intro pid wh
    simp only [add_c2c_subscription]
    split <;> rfl
  · intro pid wh hne
    simp [add_c2c_subscription, hne]
  · intro pid wh heq
    simp [add_c2c_subscription, heq]
  · simp [async_step_select_thermostats]

/-- Witness for C4: one device's subscription returns HTTP 400 and yields
`None`, the other returns HTTP 201 and yields its subscription id. -/
theorem c4_subscription_partial_failure_witness :
    (add_c2c_subscription envSubFail credW.external_url pidA whA).1 = none ∧
    (add_c2c_subscription envSubFail credW.external_url pidB whB).1 = some subIdB :=
  ⟨(c4_subscription_partial_failure envSubFail credW toksW optsW namesW).2.1 pidA whA
      (by decide),
    (c4_subscription_partial_failure envSubFail credW toksW optsW namesW).2.2.1 pidB whB
      (by decide)⟩

/-- C1 (failing evaluation): with one plant whose topology lists two
devices, the discovery dict is keyed by the plant id, so the second device
overwrites the first: only one candidate (the last device, with the second
minted webhook id) is recorded, and the selection form offers one name
instead of two. -/
theorem c1_second_device_overwrites_first :
    (envC1.topology pidA).length = 2 ∧
    (discover envC1).1 = [(pidA, Candidate.mk "t2" "Bedroom" ("wh1") [])] ∧
    (async_step_get_authorize_code envC1 false credW (some urlGood)).1 =
      StepOutcome.result
        (FlowResult.showForm step_id_select_thermostats ["Bedroom"]) := by
  decide

/-- Helper: the per-device discovery loop performs only program-list calls,
so it leaves the number of `getTopology` calls in the trace unchanged. -/
theorem discoverThermos_count_topology (env : ApiEnv) (pid : String)
    (ths : List ThermoDevice) (acc : List (String × Candidate) × List ApiCall × Nat)
    (p : String) :
    ((discoverThermos env pid ths acc).2.1).count (ApiCall.getTopology p) =
      acc.2.1.count (ApiCall.getTopology p) := by
  induction ths generalizing acc with
  | nil => rfl
  | cons th rest ih =>
    obtain ⟨d, calls, n⟩ := acc
    simp only [discoverThermos, get_programs_from_api]
    rw [ih]
    simp [List.count_append, List.count_cons]

/-- Helper: each plant id in the worklist contributes exactly one
`getTopology` call to the discovery trace. -/
theorem discoverPlants_count_topology (env : ApiEnv) (pids : List String)
    (acc : List (String × Candidate) × List ApiCall × Nat) (p : String) :
    ((discoverPlants env pids acc).2.1).count (ApiCall.getTopology p) =
      acc.2.1.count (ApiCall.getTopology p) + pids.count p := by
  induction pids generalizing acc with
  | nil => simp [discoverPlants]
  | cons pid rest ih =>
    obtain ⟨d, calls, n⟩ := acc
    simp only [discoverPlants]
    rw [ih, discoverThermos_count_topology]
    simp only [List.count_append, List.count_cons, List.count_nil]
    by_cases h : p = pid <;> simp [h] <;> omega

/-- C6: plant identifiers are deduplicated with set semantics before the
topology queries: on a successful discovery run, `get_topology` is called
exactly once for every identifier occurring in the raw plant listing —
even when the listing repeats it. -/
theorem c6_topology_called_once_per_plant (env : ApiEnv) (data : Credentials)
    (url code state : List Char) (pid : String)
    (hp : extract_code_state url = Except.ok (code, state))
    (hh : env.healthOk = true) (hs : env.plantsStatus = 200)
    (hmem : pid ∈ env.plants.map Plant.id) :
    ((async_step_get_authorize_code env false data (some url)).2).count
        (ApiCall.getTopology pid) = 1 := by
  have hbeq : (env.plantsStatus == 200) = true := by simp [hs]
  simp only [async_step_get_authorize_code, authorize_code_body, hp, hh, hbeq,
    if_true, discover]
  simp only [List.count_append, discoverPlants_count_topology, plant_ids,
    List.count_dedup, hmem, if_pos]
  simp [List.count_cons]

/-- Witness for C6: the raw listing repeats plant `p1`, yet its topology is
queried exactly once. -/
theorem c6_topology_called_once_per_plant_witness :
    ((async_step_get_authorize_code envOk false credW (some urlGood)).2).count
        (ApiCall.getTopology pidA) = 1 :=
  c6_topology_called_once_per_plant envOk credW urlGood ("A".data) ("S".data) pidA
    (by rfl) rfl rfl (by decide)

/-- Helper: a character of a clean parameter is none of the six reserved
characters. -/
theorem cleanParam_spec {l : List Char} (h : cleanParam l = true) {c : Char}
    (hc : c ∈ l) :
    c ≠ '&' ∧ c ≠ '=' ∧ c ≠ '#' ∧ c ≠ '?' ∧ c ≠ '%' ∧ c ≠ '+' := by
  have h2 := List.all_eq_true.mp h c hc
  simp only [cleanChar, Bool.not_eq_true', Bool.or_eq_false_iff,
    beq_eq_false_iff_ne] at h2
  exact ⟨h2.1.1.1.1.1, h2.1.1.1.1.2, h2.1.1.1.2, h2.1.1.2, h2.1.2, h2.2⟩

/-- Helper: a hex digit below 16 maps to an inert character. -/
theorem hexChar_clean : ∀ n, n < 16 → cleanChar (hexChar n) = true := by decide

/-- Helper: `hexChar` is injective below 16. -/
theorem hexChar_inj : ∀ a, a < 16 → ∀ b, b < 16 → hexChar a = hexChar b → a = b := by
  decide

/-- Helper: `token_hex` doubles the length. -/
theorem token_hex_length (bs : List Nat) : (token_hex bs).length = 2 * bs.length := by
  induction bs with
  | nil => rfl
  | cons b rest ih => simp [token_hex, ih]; omega

/-- Helper: a hex token is made of inert characters only. -/
theorem cleanParam_token_hex (bs : List Nat) (h : ∀ b ∈ bs, b < 256) :
    cleanParam (token_hex bs) = true := by
  induction bs with
  | nil => rfl
  | cons b rest ih =>
    have hb := h b (by simp)
    have h1 : cleanChar (hexChar (b / 16)) = true := hexChar_clean _ (by omega)
    have h2 : cleanChar (hexChar (b % 16)) = true := hexChar_clean _ (by omega)
    have h3 := ih (fun x hx => h x (by simp [hx]))
    simp only [cleanParam, token_hex, List.all_cons, h1, h2, Bool.true_and]
    exact h3

/-- Helper: `token_hex` is injective on byte lists of equal length (no
entropy of the drawn bytes is lost in the state token). -/
theorem token_hex_inj : ∀ xs ys : List Nat, (∀ b ∈ xs, b < 256) →
    (∀ b ∈ ys, b < 256) → xs.length = ys.length →
    token_hex xs = token_hex ys → xs = ys := by
  intro xs
  induction xs with
  | nil =>
    intro ys _ _ hlen _
    cases ys with
    | nil => rfl
    | cons y ys => simp at hlen
  | cons x xs ih =>
    intro ys hx hy hlen heq
    cases ys with
    | nil => simp at hlen
    | cons y ys =>
      simp only [token_hex, List.cons.injEq] at heq
      obtain ⟨h1, h2, h3⟩ := heq
      have hxb := hx x (by simp)
      have hyb := hy y (by simp)
      have e1 : x / 16 = y / 16 := hexChar_inj _ (by omega) _ (by omega) h1
      have e2 : x % 16 = y % 16 := hexChar_inj _ (by omega) _ (by omega) h2
      have hxy : x = y := by omega
      subst hxy
      have := ih ys (fun b hb => hx b (by simp [hb])) (fun b hb => hy b (by simp [hb]))
        (by simpa using hlen) h3
      simp [this]

/-- Helper: percent-decoding is the identity on a list without `%`. -/
theorem percentDecode_no_percent (l : List Char) :
    (∀ c ∈ l, c ≠ '%') → percentDecode l = l := by
  induction l with
  | nil => intro _; rfl
  | cons c rest ih =>
    intro h
    have hc : (c == '%') = false := by
      simpa using h c (by simp)
    rw [percentDecode.eq_def]
    simp only [hc, Bool.false_eq_true, if_false]
    rw [ih (fun x hx => h x (by simp [hx]))]

/-- Helper: plus-replacement is the identity on a list without `+`. -/
theorem plusToSpace_no_plus (l : List Char) :
    (∀ c ∈ l, c ≠ '+') → plusToSpace l = l := by
  induction l with
  | nil => intro _; rfl
  | cons c rest ih =>
    intro h
    have hc : (c == '+') = false := by
      simpa using h c (by simp)
    simp only [plusToSpace, List.map_cons, hc, Bool.false_eq_true, if_false]
    have := ih (fun x hx => h x (by simp [hx]))
    simp only [plusToSpace] at this
    rw [this]

/-- Helper: unquoting is the identity on a clean parameter. -/
theorem unquote_plus_clean {l : List Char} (h : cleanParam l = true) :
    unquote_plus l = l := by
  unfold unquote_plus
  rw [plusToSpace_no_plus l (fun c hc => (cleanParam_spec h hc).2.2.2.2.2),
    percentDecode_no_percent l (fun c hc => (cleanParam_spec h hc).2.2.2.2.1)]

/-- Helper: `splitOnChar` never returns the empty list of chunks. -/
theorem splitOnChar_ne_nil (sep : Char) (l : List Char) : splitOnChar sep l ≠ [] := by
  induction l with
  | nil => simp [splitOnChar]
  | cons c cs ih =>
    by_cases hc : (c == sep) = true
    · simp [splitOnChar, hc]
    · have hc' : (c == sep) = false := by simpa using hc
      simp only [splitOnChar, hc', Bool.false_eq_true, if_false]
      rcases hsp : splitOnChar sep cs with _ | ⟨h, t⟩ <;> simp

/-- Helper: a leading separator contributes an empty first chunk. -/
theorem splitOnChar_sep_cons (sep : Char) (ys : List Char) :
    splitOnChar sep (sep :: ys) = [] :: splitOnChar sep ys := by
  simp [splitOnChar]

/-- Helper: a leading non-separator is prepended to the first chunk. -/
theorem splitOnChar_cons_ne {sep c : Char} (cs : List Char) (h : (c == sep) = false) :
    splitOnChar sep (c :: cs) =
      (c :: (splitOnChar sep cs).headD []) :: (splitOnChar sep cs).tail := by
  simp only [splitOnChar, h, Bool.false_eq_true, if_false]
  rcases hsp : splitOnChar sep cs with _ | ⟨hh, t⟩
  · exact absurd hsp (splitOnChar_ne_nil sep cs)
  · simp

/-- Helper: splitting a separator-free chunk followed by a separator peels
off that chunk. -/
theorem splitOnChar_chunk (sep : Char) (xs ys : List Char)
    (h : ∀ c ∈ xs, (c == sep) = false) :
    splitOnChar sep (xs ++ sep :: ys) = xs :: splitOnChar sep ys := by
  induction xs with
  | nil => simpa using splitOnChar_sep_cons sep ys
  | cons c rest ih =>
    rw [List.cons_append, splitOnChar_cons_ne _ (h c (by simp)),
      ih (fun x hx => h x (by simp [hx]))]
    simp

/-- Helper: splitting a separator-free list yields that single chunk. -/
theorem splitOnChar_no_sep (sep : Char) (l : List Char)
    (h : ∀ c ∈ l, (c == sep) = false) :
    splitOnChar sep l = [l] := by
  induction l with
  | nil => rfl
  | cons c rest ih =>
    rw [splitOnChar_cons_ne _ (h c (by simp)), ih (fun x hx => h x (by simp [hx]))]
    simp

/-- Helper: parsing one `name=value` field whose name has no `=`, whose
name and value are unquoting fixpoints, and whose value is non-empty,
yields exactly that pair. -/
theorem parse_pair_eq (name val : List Char)
    (hname : ∀ c ∈ name, (c == '=') = false)
    (hnq : unquote_plus name = name) (hvq : unquote_plus val = val)
    (hv : val ≠ []) :
    parse_pair (name ++ '=' :: val) = some (name, val) := by
  unfold parse_pair
  have hany : (name ++ '=' :: val).any (fun c => c == '=') = true := by
    simp [List.any_append, List.any_cons]
  have htake : (name ++ '=' :: val).takeWhile (fun c => !(c == '=')) = name := by
    rw [List.takeWhile_append_of_pos (fun c hc => by simp [hname c hc])]
    simp [List.takeWhile_cons]
  have hdrop : (name ++ '=' :: val).dropWhile (fun c => !(c == '=')) = '=' :: val := by
    rw [List.dropWhile_append_of_pos (fun c hc => by simp [hname c hc])]
    simp [List.dropWhile_cons]
  simp only [hany, if_true, htake, hdrop, List.tail_cons, hnq, hvq]
  simp [List.isEmpty_iff, hv]

/-- Helper: the query of a URL shaped `pre ++ '?' :: q` with no `#` or `?`
in the prefix and no `#` in the query is exactly `q`. -/
theorem urlparse_query_concat (pre q : List Char)
    (hpre : ∀ c ∈ pre, (c == '#') = false ∧ (c == '?') = false)
    (hq : ∀ c ∈ q, (c == '#') = false) :
    urlparse_query (pre ++ '?' :: q) = q := by
  show (((pre ++ '?' :: q).takeWhile (fun c => !(c == '#'))).dropWhile
    (fun c => !(c == '?'))).tail = q
  have htake : (pre ++ '?' :: q).takeWhile (fun c => !(c == '#')) = pre ++ '?' :: q := by
    rw [List.takeWhile_eq_self_iff.mpr]
    intro c hc
    rcases List.mem_append.mp hc with hc | hc
    · simp [(hpre c hc).1]
    · rcases List.mem_cons.mp hc with hc | hc
      · simp [hc]
      · simp [hq c hc]
  rw [htake]
  rw [List.dropWhile_append_of_pos (fun c hc => by simp [(hpre c hc).2])]
  simp [List.dropWhile_cons]

/-- Helper: a chunk of shape `a ++ c :: b` is never empty. -/
theorem chunk_isEmpty (a : List Char) (c : Char) (b : List Char) :
    (a ++ c :: b).isEmpty = false := by
  cases a <;> simp [List.cons_append]

/-- Helper: absence of a character is preserved by append. -/
theorem append_no_char {X : Char} (xs ys : List Char)
    (hx : ∀ c ∈ xs, (c == X) = false) (hy : ∀ c ∈ ys, (c == X) = false) :
    ∀ c ∈ xs ++ ys, (c == X) = false := by
  intro c hc
  rcases List.mem_append.mp hc with hc | hc
  · exact hx c hc
  · exact hy c hc

/-- Helper: absence of a character is preserved by cons. -/
theorem cons_no_char {X c0 : Char} (h0 : (c0 == X) = false) (ys : List Char)
    (hy : ∀ c ∈ ys, (c == X) = false) :
    ∀ c ∈ c0 :: ys, (c == X) = false := by
  intro c hc
  rcases List.mem_cons.mp hc with rfl | hc
  · exact h0
  · exact hy c hc

/-- Helper: a clean parameter contains no `&`. -/
theorem cleanParam_no_amp {l : List Char} (h : cleanParam l = true) :
    ∀ c ∈ l, (c == '&') = false := fun c hc => by
  simpa using (cleanParam_spec h hc).1

/-- Helper: a clean parameter contains no `#`. -/
theorem cleanParam_no_hash {l : List Char} (h : cleanParam l = true) :
    ∀ c ∈ l, (c == '#') = false := fun c hc => by
  simpa using (cleanParam_spec h hc).2.2.1

/-- Helper: parsing the query of the composed authorization URL, for any
clean non-empty `client_id` and state values, yields exactly the four
expected key/value pairs. -/
theorem auth_url_parse (cid st : List Char) (hcid : cleanParam cid = true)
    (hcne : cid ≠ []) (hst : cleanParam st = true) (hstne : st ≠ []) :
    parse_qsl (urlparse_query (get_authorization_url cid st)) =
      [("client_id".data, cid), ("response_type".data, "code".data),
       ("state".data, st), ("redirect_uri".data, DEFAULT_REDIRECT_URI)] := by
  have hurl : get_authorization_url cid st =
      (DEFAULT_AUTH_BASE_URL ++ AUTH_URL_ENDPOINT) ++ '?' ::
        (("client_id".data ++ '=' :: cid) ++ '&' ::
          (("response_type".data ++ '=' :: "code".data) ++ '&' ::
            (("state".data ++ '=' :: st) ++ '&' ::
              ("redirect_uri".data ++ '=' :: DEFAULT_REDIRECT_URI)))) := by
    unfold get_authorization_url
    have e0 : "?".data = ['?'] := rfl
    have e1 : "client_id=".data = "client_id".data ++ ['='] := rfl
    have e2 : "&response_type=code".data =
      '&' :: ("response_type".data ++ '=' :: "code".data) := rfl
    have e3 : "&state=".data = '&' :: ("state".data ++ ['=']) := rfl
    have e4 : "&redirect_uri=".data = '&' :: ("redirect_uri".data ++ ['=']) := rfl
    rw [e0, e1, e2, e3, e4]
    simp [List.append_assoc]
  have hpre : ∀ c ∈ DEFAULT_AUTH_BASE_URL ++ AUTH_URL_ENDPOINT,
      (c == '#') = false ∧ (c == '?') = false := by decide
  have hch1 : ∀ c ∈ "client_id".data ++ '=' :: cid, (c == '&') = false :=
    append_no_char _ _ (by decide) (cons_no_char (by decide) _ (cleanParam_no_amp hcid))
  have hch2 : ∀ c ∈ "response_type".data ++ '=' :: "code".data,
      (c == '&') = false := by decide
  have hch3 : ∀ c ∈ "state".data ++ '=' :: st, (c == '&') = false :=
    append_no_char _ _ (by decide) (cons_no_char (by decide) _ (cleanParam_no_amp hst))
  have hch4 : ∀ c ∈ "redirect_uri".data ++ '=' :: DEFAULT_REDIRECT_URI,
      (c == '&') = false := by decide
  have hq : ∀ c ∈ ("client_id".data ++ '=' :: cid) ++ '&' ::
      (("response_type".data ++ '=' :: "code".data) ++ '&' ::
        (("state".data ++ '=' :: st) ++ '&' ::
          ("redirect_uri".data ++ '=' :: DEFAULT_REDIRECT_URI))),
      (c == '#') = false :=
    append_no_char _ _
      (append_no_char _ _ (by decide) (cons_no_char (by decide) _ (cleanParam_no_hash hcid)))
      (cons_no_char (by decide) _
        (append_no_char _ _ (by decide)
          (cons_no_char (by decide) _
            (append_no_char _ _
              (append_no_char _ _ (by decide)
                (cons_no_char (by decide) _ (cleanParam_no_hash hst)))
              (cons_no_char (by decide) _ (by decide))))))
  rw [hurl, urlparse_query_concat _ _ hpre hq]
  have hp1 : parse_pair ("client_id".data ++ '=' :: cid) =
      some ("client_id".data, cid) :=
    parse_pair_eq _ _ (by decide) (by decide) (unquote_plus_clean hcid) hcne
  have hp2 : parse_pair ("response_type".data ++ '=' :: "code".data) =
      some ("response_type".data, "code".data) := by decide
  have hp3 : parse_pair ("state".data ++ '=' :: st) = some ("state".data, st) :=
    parse_pair_eq _ _ (by decide) (by decide) (unquote_plus_clean hst) hstne
  have hp4 : parse_pair ("redirect_uri".data ++ '=' :: DEFAULT_REDIRECT_URI) =
      some ("redirect_uri".data, DEFAULT_REDIRECT_URI) := by decide
  unfold parse_qsl
  rw [splitOnChar_chunk _ _ _ hch1, splitOnChar_chunk _ _ _ hch2,
    splitOnChar_chunk _ _ _ hch3, splitOnChar_no_sep _ _ hch4]
  simp only [List.filter_cons, chunk_isEmpty, Bool.not_false, if_true,
    eq_self_iff_true, List.filter_nil]
  simp only [List.filterMap_cons, hp1, hp2, hp3, hp4, List.filterMap_nil]

/-- C7: for clean, non-empty credential input, the built authorization URL
carries exactly one occurrence of each query key: `client_id` with exactly
the supplied value, `response_type=code`, `state` carrying the hex token of
the 16 freshly drawn random bytes (whose 128 bits are fully preserved:
32 hex characters, injectively in the bytes), and `redirect_uri` with the
fixed redirect URI — no key duplicated or missing. -/
theorem c7_authorization_url_well_formed (cid : List Char) (bs : List Nat)
    (hcid : cleanParam cid = true) (hcne : cid ≠ [])
    (hlen : bs.length = 16) (hbs : ∀ b ∈ bs, b < 256) :
    parse_qsl (urlparse_query (get_authorization_url cid (token_hex bs))) =
      [("client_id".data, cid), ("response_type".data, "code".data),
       ("state".data, token_hex bs), ("redirect_uri".data, DEFAULT_REDIRECT_URI)] ∧
    (token_hex bs).length = 32 ∧
    (∀ bs2 : List Nat, (∀ b ∈ bs2, b < 256) → bs2.length = 16 →
      token_hex bs2 = token_hex bs → bs2 = bs) := by
  have hstclean := cleanParam_token_hex bs hbs
  have hstlen : (token_hex bs).length = 32 := by rw [token_hex_length, hlen]
  have hstne : token_hex bs ≠ [] := by
    intro h
    rw [h] at hstlen
    simp at hstlen
  refine ⟨auth_url_parse cid (token_hex bs) hcid hcne hstclean hstne, hstlen, ?_⟩
  intro bs2 h2 hlen2 heq
  exact token_hex_inj bs2 bs h2 hbs (by rw [hlen2, hlen]) heq

/-- Witness for C7 at a concrete client id and byte draw. -/
theorem c7_authorization_url_well_formed_witness :
    parse_qsl (urlparse_query (get_authorization_url ("myclient".data)
        (token_hex (List.replicate 16 0)))) =
      [("client_id".data, "myclient".data), ("response_type".data, "code".data),
       ("state".data, token_hex (List.replicate 16 0)),
       ("redirect_uri".data, DEFAULT_REDIRECT_URI)] :=
  (c7_authorization_url_well_formed ("myclient".data) (List.replicate 16 0)
    (by decide) (by decide) (by decide) (by decide)).1
